import Mathlib

/-!
# Verification of the accident-detection dashboard client (`src/script.js`)

A shallow embedding of the event-to-view synchronization layer of
`src/script.js`.  JavaScript numbers are modelled as rationals (`ℚ`);
an absent (`undefined`) field is `Option.none`.  JavaScript's `a || b`
on numbers selects `b` exactly when `a` is falsy, i.e. `0`, `NaN` or
`undefined`; `NaN` only arises here as `undefined * 100`, and since it
is falsy like `undefined`, `none` stands for both.
-/

namespace AccidentDashboard

/-- JS `a || b` on a number that may be `undefined`/`NaN` (`none`):
`b` is returned when `a` is falsy (`0`, `undefined`, `NaN`). -/
def jsOr (a : Option ℚ) (b : ℚ) : ℚ :=
  match a with
  | some v => if v = 0 then b else v
  | none => b

/-- JS `Number.prototype.toFixed(1)` for nonnegative rationals:
nearest multiple of 1/10, ties to the larger value, printed with one
decimal digit. -/
def toFixed1 (q : ℚ) : String :=
  let n : Int := round (q * 10)
  let m := n.natAbs
  (if n < 0 then "-" else "") ++ toString (m / 10) ++ "." ++ toString (m % 10)

/-- JS `Number.prototype.toFixed(0)`: nearest integer, ties to the
larger value (the DOM shows its decimal string). -/
def toFixed0 (q : ℚ) : Int :=
  round q

/-- The `severity_factors` object of a detection payload
(`{overlap, motion, debris}`); each key may be absent. -/
structure SeverityFactors where
  overlap : Option ℚ
  motion : Option ℚ
  debris : Option ℚ
  deriving DecidableEq

/-- Inbound `new_detection` / `accident_alert` payload
(section 6 of the spec; fields read by `script.js`). -/
structure DetectionPayload where
  accident_detected : Bool
  severity : Option String
  severity_confidence : Option ℚ
  confidence : Option ℚ
  vehicle_count : Option ℚ
  severity_factors : Option SeverityFactors
  deriving DecidableEq

/-- Line 360: `data.severity_confidence || (data.confidence * 100) || 0`.
`data.confidence * 100` is `NaN` (falsy, modelled `none`) when
`confidence` is absent. -/
def normalizedConfidence (d : DetectionPayload) : ℚ :=
  jsOr d.severity_confidence (jsOr (d.confidence.map (· * 100)) 0)

/-- Line 365: the confidence label `confidence.toFixed(1) + '%'`. -/
def confidenceLabel (d : DetectionPayload) : String :=
  toFixed1 (normalizedConfidence d) ++ "%"

/-- Lines 374-380: stroke color of the confidence arc.
`#10b981` is the "good" band, `#f59e0b` "warn", `#ef4444` "bad". -/
def confidenceStroke (c : ℚ) : String :=
  if c ≥ 85 then "#10b981"
  else if c ≥ 65 then "#f59e0b"
  else "#ef4444"

/-- The DOM cells written by `updateDetectionMetrics`: the
DetectionSnapshot of the spec as displayed. Factor cells hold the
integer whose decimal string `toFixed(0)` produced. -/
structure DetectionSnapshot where
  accidentDetected : Bool
  severityText : String
  confidenceText : String
  confidencePct : ℚ
  strokeColor : String
  vehicleCount : ℚ
  factorOverlap : Int
  factorMotion : Int
  factorDebris : Int
  deriving DecidableEq

/-- Lines 332-394, `updateDetectionMetrics(data)` as a transformer of
the displayed snapshot.  `severity` is written only under
`if (data.severity)` (truthy: present and nonempty), and the three
factor cells only under `if (data.severity_factors)`. -/
def updateDetectionMetrics (d : DetectionPayload) (s : DetectionSnapshot) :
    DetectionSnapshot :=
  let c := normalizedConfidence d
  { accidentDetected := d.accident_detected
    severityText :=
      match d.severity with
      | some sev => if sev = "" then s.severityText else sev
      | none => s.severityText
    confidenceText := toFixed1 c ++ "%"
    confidencePct := c
    strokeColor := confidenceStroke c
    vehicleCount := jsOr d.vehicle_count 0
    factorOverlap :=
      match d.severity_factors with
      | some f => toFixed0 (jsOr f.overlap 0)
      | none => s.factorOverlap
    factorMotion :=
      match d.severity_factors with
      | some f => toFixed0 (jsOr f.motion 0)
      | none => s.factorMotion
    factorDebris :=
      match d.severity_factors with
      | some f => toFixed0 (jsOr f.debris 0)
      | none => s.factorDebris }

/-- Lines 444-451, `getSeverityIcon(severity)`: dictionary lookup
`icons[severity]` with `|| 'fa-exclamation-triangle'` fallback for any
unknown key (including `undefined`). -/
def getSeverityIcon (severity : Option String) : String :=
  if severity = some "MINOR" then "fa-car"
  else if severity = some "MAJOR" then "fa-truck"
  else if severity = some "CRITICAL" then "fa-bomb"
  else "fa-exclamation-triangle"

/-- Line 432: `(data.confidence * 100).toFixed(1) + '%'`.  When
`confidence` is absent, `undefined * 100` is `NaN` and
`NaN.toFixed(1)` is the string `"NaN"`. -/
def timelineConfidenceText (d : DetectionPayload) : String :=
  match d.confidence with
  | some c => toFixed1 (c * 100) ++ "%"
  | none => "NaN%"

/-- One rendered `timeline-item` (lines 426-434). -/
structure TimelineEntry where
  iconClass : String
  icon : String
  title : String
  timeText : String
  deriving DecidableEq

/-- Lines 420-434: the element built by `addToTimeline` once
`data.severity` is known to be a string `sev`. -/
def mkTimelineItem (d : DetectionPayload) (time : String) (sev : String) :
    TimelineEntry :=
  { iconClass := sev.toLower
    icon := getSeverityIcon (some sev)
    title := sev ++ " Accident Detected"
    timeText := time ++ " - Confidence: " ++ timelineConfidenceText d }

/-- Lines 436-441: `insertBefore(item, firstChild)` then, if the count
exceeds 10, `removeChild(lastChild)`. -/
def addToTimeline (item : TimelineEntry) (tl : List TimelineEntry) :
    List TimelineEntry :=
  let tl' := item :: tl
  if 10 < tl'.length then tl'.dropLast else tl'

/-- The `severity_counts` object of a `stats_update` payload. -/
structure SeverityCounts where
  MINOR : Option ℚ
  MAJOR : Option ℚ
  CRITICAL : Option ℚ
  deriving DecidableEq

/-- Inbound `stats_update` payload (spec section 6). -/
structure StatsPayload where
  accidents_detected : Option ℚ
  severity_counts : Option SeverityCounts
  deriving DecidableEq

/-- The aggregate displays written by `updateStats`: the counter cell
and the three severity-chart data slots. -/
structure StatsView where
  accidentsDetected : ℚ
  chartMinor : ℚ
  chartMajor : ℚ
  chartCritical : ℚ
  deriving DecidableEq

/-- Before any `stats_update`: the counter's `data-target="24"` and the
severity chart's initial dataset `[12, 8, 4]` (lines 143, 580). -/
def initStatsView : StatsView :=
  { accidentsDetected := 24, chartMinor := 12, chartMajor := 8, chartCritical := 4 }

/-- Lines 578-591, `updateStats(data)`: the counter becomes
`data.accidents_detected || 24`; under `if (data.severity_counts)` the
chart dataset becomes `[MINOR || 12, MAJOR || 8, CRITICAL || 4]`. -/
def updateStats (d : StatsPayload) (s : StatsView) : StatsView :=
  let s1 := { s with accidentsDetected := jsOr d.accidents_detected 24 }
  match d.severity_counts with
  | some sc =>
      { s1 with
        chartMinor := jsOr sc.MINOR 12
        chartMajor := jsOr sc.MAJOR 8
        chartCritical := jsOr sc.CRITICAL 4 }
  | none => s1

/-- JS template-literal coercion `${data.severity}`: an absent field
prints as the string `"undefined"`. -/
def jsStr (s : Option String) : String :=
  s.getD "undefined"

/-- Lines 532-544, `playAlertSound(severity)`: `sounds[severity] ||
sounds['MAJOR']`; we record which dictionary key was selected. -/
def soundKey (s : Option String) : String :=
  if s = some "MINOR" then "MINOR"
  else if s = some "MAJOR" then "MAJOR"
  else if s = some "CRITICAL" then "CRITICAL"
  else "MAJOR"

/-- The whole client-visible view state: the DetectionSnapshot, the
alert timeline, the AggregateStats view, and a record of the
Notification Sink calls (toasts, sounds, confetti bursts). -/
structure ClientState where
  snapshot : DetectionSnapshot
  timeline : List TimelineEntry
  stats : StatsView
  toasts : List String
  sounds : List String
  confettiBursts : Nat
  deriving DecidableEq

/-- Lines 397-414, `handleAccidentAlert(data)`: toast, confetti for
CRITICAL, sound, timeline, metrics — in source order.  When
`data.severity` is absent, line 423 (`data.severity.toLowerCase()`)
throws a TypeError: the toast/confetti/sound effects already performed
remain, the exception propagates (second component `some msg`), and
neither the timeline nor the metrics are updated. -/
def handleAccidentAlert (d : DetectionPayload) (time : String) (st : ClientState) :
    ClientState × Option String :=
  let st1 : ClientState :=
    { st with toasts := (jsStr d.severity ++ " Accident Detected!") :: st.toasts }
  let st2 : ClientState :=
    if d.severity = some "CRITICAL" then
      { st1 with confettiBursts := st1.confettiBursts + 1 }
    else st1
  let st3 : ClientState := { st2 with sounds := soundKey d.severity :: st2.sounds }
  match d.severity with
  | none =>
      (st3, some "TypeError: Cannot read properties of undefined (reading toLowerCase)")
  | some sev =>
      let st4 : ClientState :=
        { st3 with timeline := addToTimeline (mkTimelineItem d time sev) st3.timeline }
      ({ st4 with snapshot := updateDetectionMetrics d st4.snapshot }, none)

/-- The three server-pushed event kinds routed by `initWebSocket`
(lines 54-67). -/
inductive ServerEvent where
  | accident_alert (d : DetectionPayload) (time : String)
  | new_detection (d : DetectionPayload)
  | stats_update (p : StatsPayload)

/-- Lines 54-67: the event dispatcher.  `new_detection` only calls
`updateDetectionMetrics`; `stats_update` only calls `updateStats`;
`accident_alert` calls `handleAccidentAlert`. -/
def dispatch (e : ServerEvent) (st : ClientState) : ClientState × Option String :=
  match e with
  | .accident_alert d t => handleAccidentAlert d t st
  | .new_detection d => ({ st with snapshot := updateDetectionMetrics d st.snapshot }, none)
  | .stats_update p => ({ st with stats := updateStats p st.stats }, none)

/-! ## Helper lemmas -/

theorem jsOr_ne_zero {a : Option ℚ} {b : ℚ} (hb : b ≠ 0) : jsOr a b ≠ 0 := by
  cases a with
  | none => simpa [jsOr] using hb
  | some v =>
      by_cases hv : v = 0
      · simp [jsOr, hv, hb]
      · simp [jsOr, hv]

/-! ## Claims -/

/-- C5: for every normalized confidence value `c`, the gauge color band
has inclusive lower bounds: `c ≥ 85` is the good band (`#10b981`),
`65 ≤ c < 85` the warn band (`#f59e0b`), and `c < 65` the bad band
(`#ef4444`); in particular 85 is good, 84.999 warn, 65 warn and
64.999 bad. -/
theorem C5_confidence_banding :
    (∀ c : ℚ, 85 ≤ c → confidenceStroke c = "#10b981")
      ∧ (∀ c : ℚ, 65 ≤ c → c < 85 → confidenceStroke c = "#f59e0b")
      ∧ (∀ c : ℚ, c < 65 → confidenceStroke c = "#ef4444")
      ∧ confidenceStroke 85 = "#10b981"
      ∧ confidenceStroke (84999/1000) = "#f59e0b"
      ∧ confidenceStroke 65 = "#f59e0b"
      ∧ confidenceStroke (64999/1000) = "#ef4444" := by
  refine ⟨?_, ?_, ?_, ?_, ?_, ?_, ?_⟩
  · intro c hc
    simp [confidenceStroke, hc]
  · intro c h1 h2
    simp [confidenceStroke, h1, not_le.mpr h2]
  · intro c h
    simp [confidenceStroke, not_le.mpr h,
      not_le.mpr (h.trans_le (by norm_num : (65:ℚ) ≤ 85))]
  · norm_num [confidenceStroke]
  · norm_num [confidenceStroke]
  · norm_num [confidenceStroke]
  · norm_num [confidenceStroke]

/-- Witness for C5 at the concrete confidences 90, 70 and 10. -/
theorem C5_confidence_banding_witness :
    confidenceStroke 90 = "#10b981" ∧ confidenceStroke 70 = "#f59e0b"
      ∧ confidenceStroke 10 = "#ef4444" :=
  ⟨C5_confidence_banding.1 90 (by norm_num),
   C5_confidence_banding.2.1 70 (by norm_num) (by norm_num),
   C5_confidence_banding.2.2.1 10 (by norm_num)⟩

set_option maxHeartbeats 1600000 in
/-- C4: the alert timeline is a newest-first sequence of at most 10
entries: each alert is prepended at the front, and on overflow the
last (oldest) entry is evicted; 12 alerts starting from an empty
timeline leave exactly the 10 most recent, newest first. -/
theorem C4_timeline_capacity :
    (∀ (item : TimelineEntry) (tl : List TimelineEntry),
        tl.length ≤ 10 → (addToTimeline item tl).length ≤ 10)
      ∧ ∀ (e1 e2 e3 e4 e5 e6 e7 e8 e9 e10 e11 e12 : TimelineEntry),
          List.foldl (fun tl e => addToTimeline e tl) []
              [e1, e2, e3, e4, e5, e6, e7, e8, e9, e10, e11, e12]
            = [e12, e11, e10, e9, e8, e7, e6, e5, e4, e3] := by
  constructor
  · intro item tl h
    unfold addToTimeline
    by_cases hl : 10 < (item :: tl).length
    · rw [if_pos hl]
      simp only [List.length_dropLast, List.length_cons]
      omega
    · rw [if_neg hl]
      simp only [List.length_cons] at hl ⊢
      omega
  · intro e1 e2 e3 e4 e5 e6 e7 e8 e9 e10 e11 e12
    simp only [List.foldl_cons, List.foldl_nil]
    norm_num [addToTimeline, List.dropLast]

/-- Witness for C4 with concrete timeline entries. -/
theorem C4_timeline_capacity_witness :
    (addToTimeline ⟨"minor", "fa-car", "t", "c"⟩ []).length ≤ 10
      ∧ List.foldl (fun tl e => addToTimeline e tl) []
          [⟨"minor", "fa-car", "t", "c"⟩, ⟨"minor", "fa-car", "t", "c"⟩,
           ⟨"minor", "fa-car", "t", "c"⟩, ⟨"minor", "fa-car", "t", "c"⟩,
           ⟨"minor", "fa-car", "t", "c"⟩, ⟨"minor", "fa-car", "t", "c"⟩,
           ⟨"minor", "fa-car", "t", "c"⟩, ⟨"minor", "fa-car", "t", "c"⟩,
           ⟨"minor", "fa-car", "t", "c"⟩, ⟨"minor", "fa-car", "t", "c"⟩,
           ⟨"minor", "fa-car", "t", "c"⟩, ⟨"minor", "fa-car", "t", "c"⟩]
        = [⟨"minor", "fa-car", "t", "c"⟩, ⟨"minor", "fa-car", "t", "c"⟩,
           ⟨"minor", "fa-car", "t", "c"⟩, ⟨"minor", "fa-car", "t", "c"⟩,
           ⟨"minor", "fa-car", "t", "c"⟩, ⟨"minor", "fa-car", "t", "c"⟩,
           ⟨"minor", "fa-car", "t", "c"⟩, ⟨"minor", "fa-car", "t", "c"⟩,
           ⟨"minor", "fa-car", "t", "c"⟩, ⟨"minor", "fa-car", "t", "c"⟩] :=
  ⟨C4_timeline_capacity.1 _ _ (by simp),
   C4_timeline_capacity.2 _ _ _ _ _ _ _ _ _ _ _ _⟩

/-- C8: a `new_detection` event writes only the DetectionSnapshot: the
timeline, the AggregateStats view, and the Notification Sink records
(toasts, sounds, confetti) are unchanged, and no exception occurs. -/
theorem C8_new_detection_frame (d : DetectionPayload) (st : ClientState) :
    (dispatch (ServerEvent.new_detection d) st).1.snapshot
        = updateDetectionMetrics d st.snapshot
      ∧ (dispatch (ServerEvent.new_detection d) st).1.timeline = st.timeline
      ∧ (dispatch (ServerEvent.new_detection d) st).1.stats = st.stats
      ∧ (dispatch (ServerEvent.new_detection d) st).1.toasts = st.toasts
      ∧ (dispatch (ServerEvent.new_detection d) st).1.sounds = st.sounds
      ∧ (dispatch (ServerEvent.new_detection d) st).1.confettiBursts
          = st.confettiBursts
      ∧ (dispatch (ServerEvent.new_detection d) st).2 = none := by
  simp [dispatch]

/-- C1 counterexample: the payload `{severity_confidence: 0, confidence: 0.5}`
provides `severity_confidence`, yet the displayed confidence is 50 (i.e.
"50.0%"), not the provided value 0: the `||` chain treats a zero
`severity_confidence` as if it were absent. -/
theorem C1_counterexample :
    (DetectionPayload.mk true none (some 0) (some (1/2)) none none).severity_confidence
        = some 0
      ∧ normalizedConfidence
          (DetectionPayload.mk true none (some 0) (some (1/2)) none none) = 50
      ∧ confidenceLabel
          (DetectionPayload.mk true none (some 0) (some (1/2)) none none) = "50.0%"
      ∧ (50 : ℚ) ≠ 0 := by
  have h : normalizedConfidence
      (DetectionPayload.mk true none (some 0) (some (1/2)) none none) = 50 := by
    norm_num [normalizedConfidence, jsOr]
  refine ⟨rfl, h, ?_, by norm_num⟩
  rw [confidenceLabel, h]
  norm_num [toFixed1, round_eq]
  rfl

/-- C1 (amended): a nonzero `severity_confidence` is used directly;
otherwise, if the payload provides a nonzero `confidence`, it is
multiplied by 100; otherwise the displayed confidence is 0 — a zero
`severity_confidence` is indistinguishable from an absent one and falls
through to the `confidence` field.  The claim's examples hold:
`{confidence: 0.87}` displays "87.0%", `{severity_confidence: 42}`
displays "42.0%", and a payload with neither field displays "0.0%". -/
theorem C1_amended :
    (∀ (d : DetectionPayload) (sv : ℚ), d.severity_confidence = some sv → sv ≠ 0 →
        normalizedConfidence d = sv)
      ∧ (∀ (d : DetectionPayload) (c : ℚ),
          (d.severity_confidence = none ∨ d.severity_confidence = some 0) →
          d.confidence = some c → c ≠ 0 → normalizedConfidence d = c * 100)
      ∧ (∀ d : DetectionPayload,
          (d.severity_confidence = none ∨ d.severity_confidence = some 0) →
          (d.confidence = none ∨ d.confidence = some 0) →
          normalizedConfidence d = 0)
      ∧ (∀ d : DetectionPayload, d.severity_confidence = none →
          d.confidence = some (87/100) → confidenceLabel d = "87.0%")
      ∧ (∀ d : DetectionPayload, d.severity_confidence = some 42 →
          confidenceLabel d = "42.0%")
      ∧ (∀ d : DetectionPayload, d.severity_confidence = none → d.confidence = none →
          confidenceLabel d = "0.0%") := by
  refine ⟨?_, ?_, ?_, ?_, ?_, ?_⟩
  · intro d sv h hne
    simp [normalizedConfidence, jsOr, h, hne]
  · intro d c hsv hc hcne
    rcases hsv with h | h <;>
      simp [normalizedConfidence, jsOr, h, hc, mul_eq_zero, hcne]
  · intro d hsv hc
    rcases hsv with h | h <;> rcases hc with h' | h' <;>
      simp [normalizedConfidence, jsOr, h, h']
  · intro d h hc
    have hn : normalizedConfidence d = 87 := by
      rw [normalizedConfidence, h, hc]
      norm_num [jsOr]
    rw [confidenceLabel, hn]
    norm_num [toFixed1, round_eq]
    rfl
  · intro d h
    have hn : normalizedConfidence d = 42 := by
      rw [normalizedConfidence, h]
      norm_num [jsOr]
    rw [confidenceLabel, hn]
    norm_num [toFixed1, round_eq]
    rfl
  · intro d h hc
    have hn : normalizedConfidence d = 0 := by
      rw [normalizedConfidence, h, hc]
      norm_num [jsOr]
    rw [confidenceLabel, hn]
    norm_num [toFixed1, round_eq]
    rfl

/-- Witness for C1 (amended) at the claim's concrete payloads. -/
theorem C1_amended_witness :
    normalizedConfidence (DetectionPayload.mk false none (some 42) none none none) = 42
      ∧ normalizedConfidence
          (DetectionPayload.mk false none none (some (87/100)) none none)
          = 87/100 * 100
      ∧ confidenceLabel (DetectionPayload.mk false none none none none none)
          = "0.0%" :=
  ⟨C1_amended.1 _ 42 rfl (by norm_num),
   C1_amended.2.1 _ (87/100) (Or.inl rfl) rfl (by norm_num),
   C1_amended.2.2.2.2.2 _ rfl rfl⟩

/-- C2 counterexample: after the full stats `{accidents_detected: 10,
severity_counts: {MINOR: 1, MAJOR: 2, CRITICAL: 3}}`, applying
`{severity_counts: {MINOR: 5}}` resets MAJOR to the built-in default 8
(its previous value was 2), CRITICAL to 4, and the counter to 24:
fields absent from the payload do not retain their previous values. -/
theorem C2_counterexample :
    (updateStats ⟨some 10, some ⟨some 1, some 2, some 3⟩⟩ initStatsView).chartMajor
        = 2
      ∧ updateStats ⟨none, some ⟨some 5, none, none⟩⟩
          (updateStats ⟨some 10, some ⟨some 1, some 2, some 3⟩⟩ initStatsView)
        = { accidentsDetected := 24, chartMinor := 5, chartMajor := 8,
            chartCritical := 4 }
      ∧ (8 : ℚ) ≠ 2 := by
  refine ⟨?_, ?_, by norm_num⟩ <;> norm_num [updateStats, initStatsView, jsOr]

/-- C2 (amended): `stats_update` merges only at the top level: when
`severity_counts` is entirely absent the chart retains its previous
values, but within a present `severity_counts` each absent key resets
to the built-in defaults (MINOR 12, MAJOR 8, CRITICAL 4), and an absent
`accidents_detected` resets the counter to its default 24 — previous
values are not retained below the top level. -/
theorem C2_amended :
    (∀ s : StatsView, updateStats ⟨none, some ⟨some 5, none, none⟩⟩ s
        = { accidentsDetected := 24, chartMinor := 5, chartMajor := 8,
            chartCritical := 4 })
      ∧ (∀ (d : StatsPayload) (s : StatsView), d.severity_counts = none →
          (updateStats d s).chartMinor = s.chartMinor
            ∧ (updateStats d s).chartMajor = s.chartMajor
            ∧ (updateStats d s).chartCritical = s.chartCritical)
      ∧ (∀ (d : StatsPayload) (s : StatsView), d.accidents_detected = none →
          (updateStats d s).accidentsDetected = 24) := by
  refine ⟨?_, ?_, ?_⟩
  · intro s
    norm_num [updateStats, jsOr]
  · intro d s h
    simp [updateStats, h, jsOr]
  · intro d s h
    rcases hsc : d.severity_counts with _ | sc <;> simp [updateStats, h, hsc, jsOr]

/-- Witness for C2 (amended) starting from the initial stats view. -/
theorem C2_amended_witness :
    updateStats ⟨none, some ⟨some 5, none, none⟩⟩ initStatsView
        = { accidentsDetected := 24, chartMinor := 5, chartMajor := 8,
            chartCritical := 4 }
      ∧ (updateStats ⟨some 7, none⟩ initStatsView).chartMinor
          = initStatsView.chartMinor :=
  ⟨C2_amended.1 initStatsView, (C2_amended.2.1 ⟨some 7, none⟩ initStatsView rfl).1⟩

/-- C3 counterexample: two sequences of `new_detection` events ending in
the same payload (whose `severity` field is absent) produce different
snapshots — "MAJOR" vs "MINOR" — so the snapshot after a sequence is
not the last event's payload: `severity` is retained from the earlier
event rather than replaced wholesale. -/
theorem C3_counterexample :
    (updateDetectionMetrics (DetectionPayload.mk true none (some 90) none (some 2) none)
        (updateDetectionMetrics
          (DetectionPayload.mk true (some "MAJOR") (some 80) none (some 1) none)
          (DetectionSnapshot.mk false "Normal" "0.0%" 0 "#ef4444" 0 0 0 0))).severityText
        = "MAJOR"
      ∧ (updateDetectionMetrics
          (DetectionPayload.mk true none (some 90) none (some 2) none)
          (updateDetectionMetrics
            (DetectionPayload.mk true (some "MINOR") (some 80) none (some 1) none)
            (DetectionSnapshot.mk false "Normal" "0.0%" 0 "#ef4444" 0 0 0 0))).severityText
        = "MINOR"
      ∧ "MAJOR" ≠ "MINOR" := by
  refine ⟨?_, ?_, by decide⟩ <;> simp [updateDetectionMetrics]

/-- C3 (amended): each `new_detection` replaces the status, confidence,
vehicle-count portions of the snapshot wholesale, but retains the
previous severity text when the payload's `severity` is absent or empty
and the previous factor cells when `severity_factors` is absent; when
the last event of a sequence carries a nonempty severity and a
`severity_factors` object, the snapshot after the sequence is
determined by that last payload alone (last-write-wins). -/
theorem C3_amended :
    (∀ (d : DetectionPayload) (s₁ s₂ : DetectionSnapshot) (sev : String)
        (f : SeverityFactors), d.severity = some sev → sev ≠ "" →
        d.severity_factors = some f →
        updateDetectionMetrics d s₁ = updateDetectionMetrics d s₂)
      ∧ (∀ (l₁ l₂ : List DetectionPayload) (d : DetectionPayload)
          (s₁ s₂ : DetectionSnapshot) (sev : String) (f : SeverityFactors),
          d.severity = some sev → sev ≠ "" → d.severity_factors = some f →
          List.foldl (fun s p => updateDetectionMetrics p s) s₁ (l₁ ++ [d])
            = List.foldl (fun s p => updateDetectionMetrics p s) s₂ (l₂ ++ [d]))
      ∧ (∀ (d : DetectionPayload) (s : DetectionSnapshot), d.severity = none →
          (updateDetectionMetrics d s).severityText = s.severityText)
      ∧ (∀ (d : DetectionPayload) (s : DetectionSnapshot), d.severity_factors = none →
          (updateDetectionMetrics d s).factorOverlap = s.factorOverlap
            ∧ (updateDetectionMetrics d s).factorMotion = s.factorMotion
            ∧ (updateDetectionMetrics d s).factorDebris = s.factorDebris) := by
  have key : ∀ (d : DetectionPayload) (s₁ s₂ : DetectionSnapshot) (sev : String)
      (f : SeverityFactors), d.severity = some sev → sev ≠ "" →
      d.severity_factors = some f →
      updateDetectionMetrics d s₁ = updateDetectionMetrics d s₂ := by
    intro d s₁ s₂ sev f hsev hne hf
    simp [updateDetectionMetrics, hsev, hne, hf]
  refine ⟨key, ?_, ?_, ?_⟩
  · intro l₁ l₂ d s₁ s₂ sev f hsev hne hf
    rw [List.foldl_append, List.foldl_append]
    simp only [List.foldl_cons, List.foldl_nil]
    exact key d _ _ sev f hsev hne hf
  · intro d s h
    simp [updateDetectionMetrics, h]
  · intro d s h
    simp [updateDetectionMetrics, h]

/-- Witness for C3 (amended): a payload with a nonempty severity and a
factor object overwrites two different prior snapshots identically. -/
theorem C3_amended_witness :
    updateDetectionMetrics
        (DetectionPayload.mk true (some "MAJOR") (some 80) none (some 1)
          (some ⟨some 1, some 2, some 3⟩))
        (DetectionSnapshot.mk false "Normal" "0.0%" 0 "#ef4444" 0 0 0 0)
      = updateDetectionMetrics
        (DetectionPayload.mk true (some "MAJOR") (some 80) none (some 1)
          (some ⟨some 1, some 2, some 3⟩))
        (DetectionSnapshot.mk true "MINOR" "50.0%" 50 "#ef4444" 9 9 9 9) :=
  C3_amended.1 _ _ _ "MAJOR" ⟨some 1, some 2, some 3⟩ rfl (by decide) rfl

/-- C6 counterexample: a payload whose `severity_factors` object is
entirely missing leaves the three factor cells at their previous
values 10/20/30 — they are left un-rendered, not rendered as 0. -/
theorem C6_counterexample :
    (updateDetectionMetrics
        (DetectionPayload.mk true (some "MINOR") (some 50) none (some 1) none)
        (DetectionSnapshot.mk true "MAJOR" "90.0%" 90 "#10b981" 2 10 20 30)).factorOverlap
        = 10
      ∧ (updateDetectionMetrics
          (DetectionPayload.mk true (some "MINOR") (some 50) none (some 1) none)
          (DetectionSnapshot.mk true "MAJOR" "90.0%" 90 "#10b981" 2 10 20 30)).factorMotion
        = 20
      ∧ (updateDetectionMetrics
          (DetectionPayload.mk true (some "MINOR") (some 50) none (some 1) none)
          (DetectionSnapshot.mk true "MAJOR" "90.0%" 90 "#10b981" 2 10 20 30)).factorDebris
        = 30
      ∧ (10 : Int) ≠ 0 := by
  refine ⟨?_, ?_, ?_, by decide⟩ <;> simp [updateDetectionMetrics]

/-- C6 (amended): when the payload carries a `severity_factors` object,
the three bars render each value with 0 decimal places and an absent
key renders as 0 — `{overlap: 73.4}` with no motion/debris renders 73,
0, 0; but when the object is entirely missing, the three cells are left
un-rendered, retaining their previous values instead of showing 0. -/
theorem C6_amended :
    (∀ (d : DetectionPayload) (s : DetectionSnapshot),
        d.severity_factors = some ⟨some (367/5), none, none⟩ →
        (updateDetectionMetrics d s).factorOverlap = 73
          ∧ (updateDetectionMetrics d s).factorMotion = 0
          ∧ (updateDetectionMetrics d s).factorDebris = 0)
      ∧ (∀ (d : DetectionPayload) (s : DetectionSnapshot),
          d.severity_factors = none →
          (updateDetectionMetrics d s).factorOverlap = s.factorOverlap
            ∧ (updateDetectionMetrics d s).factorMotion = s.factorMotion
            ∧ (updateDetectionMetrics d s).factorDebris = s.factorDebris) := by
  constructor
  · intro d s h
    refine ⟨?_, ?_, ?_⟩ <;> simp [updateDetectionMetrics, h, toFixed0, jsOr] <;>
      norm_num [round_eq]
  · intro d s h
    simp [updateDetectionMetrics, h]

/-- Witness for C6 (amended) at concrete payloads and snapshots. -/
theorem C6_amended_witness :
    (updateDetectionMetrics
        (DetectionPayload.mk true (some "MINOR") (some 50) none (some 1)
          (some ⟨some (367/5), none, none⟩))
        (DetectionSnapshot.mk false "Normal" "0.0%" 0 "#ef4444" 0 5 7 9)).factorOverlap
        = 73
      ∧ (updateDetectionMetrics
          (DetectionPayload.mk true (some "MINOR") (some 50) none (some 1) none)
          (DetectionSnapshot.mk false "Normal" "0.0%" 0 "#ef4444" 0 5 7 9)).factorMotion
        = 7 :=
  ⟨(C6_amended.1 _ _ rfl).1, (C6_amended.2 _ _ rfl).2.1⟩

/-- C7 counterexample: an `accident_alert` payload with no `severity`
field is not tolerated: `data.severity.toLowerCase()` (line 423)
throws, so the handler fails, no timeline entry is recorded, and the
metrics are not updated. -/
theorem C7_counterexample :
    ((handleAccidentAlert
        (DetectionPayload.mk true none (some 90) none (some 1) none) "12:00:00"
        (ClientState.mk (DetectionSnapshot.mk false "Normal" "0.0%" 0 "#ef4444" 0 0 0 0)
          [] initStatsView [] [] 0)).2).isSome = true
      ∧ (handleAccidentAlert
          (DetectionPayload.mk true none (some 90) none (some 1) none) "12:00:00"
          (ClientState.mk (DetectionSnapshot.mk false "Normal" "0.0%" 0 "#ef4444" 0 0 0 0)
            [] initStatsView [] [] 0)).1.timeline = []
      ∧ (handleAccidentAlert
          (DetectionPayload.mk true none (some 90) none (some 1) none) "12:00:00"
          (ClientState.mk (DetectionSnapshot.mk false "Normal" "0.0%" 0 "#ef4444" 0 0 0 0)
            [] initStatsView [] [] 0)).1.snapshot
        = DetectionSnapshot.mk false "Normal" "0.0%" 0 "#ef4444" 0 0 0 0 := by
  refine ⟨?_, ?_, ?_⟩
  · simp [handleAccidentAlert]
  · simp [handleAccidentAlert]
  · simp [handleAccidentAlert]

/-- C7 (amended): an unknown severity string is tolerated, not
rejected: the handler completes normally, the entry is recorded with
the fallback icon `fa-exclamation-triangle`, and the metrics are
updated; but a payload with `severity` entirely absent makes the
handler throw at `data.severity.toLowerCase()`: the toast still fires
(with the text "undefined Accident Detected!"), while the timeline and
the snapshot are left unchanged. -/
theorem C7_amended :
    (∀ (d : DetectionPayload) (t : String) (st : ClientState) (sev : String),
        d.severity = some sev →
        (handleAccidentAlert d t st).2 = none
          ∧ (handleAccidentAlert d t st).1.timeline
              = addToTimeline (mkTimelineItem d t sev) st.timeline
          ∧ (handleAccidentAlert d t st).1.snapshot
              = updateDetectionMetrics d st.snapshot)
      ∧ (∀ sev : String, sev ≠ "MINOR" → sev ≠ "MAJOR" → sev ≠ "CRITICAL" →
          getSeverityIcon (some sev) = "fa-exclamation-triangle")
      ∧ (∀ (d : DetectionPayload) (t : String) (st : ClientState),
          d.severity = none →
          ((handleAccidentAlert d t st).2).isSome = true
            ∧ (handleAccidentAlert d t st).1.timeline = st.timeline
            ∧ (handleAccidentAlert d t st).1.snapshot = st.snapshot
            ∧ (handleAccidentAlert d t st).1.toasts
                = "undefined Accident Detected!" :: st.toasts) := by
  refine ⟨?_, ?_, ?_⟩
  · intro d t st sev h
    by_cases hc : sev = "CRITICAL"
    · simp [handleAccidentAlert, h, hc]
    · simp [handleAccidentAlert, h, hc]
  · intro sev h1 h2 h3
    simp [getSeverityIcon, h1, h2, h3]
  · intro d t st h
    simp [handleAccidentAlert, h, jsStr]

/-- Witness for C7 (amended): a payload with the unknown severity
"BANANA" succeeds; a payload with no severity fails. -/
theorem C7_amended_witness :
    (handleAccidentAlert
        (DetectionPayload.mk true (some "BANANA") none (some (1/2)) none none) "t"
        (ClientState.mk (DetectionSnapshot.mk false "Normal" "0.0%" 0 "#ef4444" 0 0 0 0)
          [] initStatsView [] [] 0)).2 = none
      ∧ getSeverityIcon (some "BANANA") = "fa-exclamation-triangle"
      ∧ ((handleAccidentAlert
          (DetectionPayload.mk true none none none none none) "t"
          (ClientState.mk (DetectionSnapshot.mk false "Normal" "0.0%" 0 "#ef4444" 0 0 0 0)
            [] initStatsView [] [] 0)).2).isSome = true :=
  ⟨(C7_amended.1 _ "t" _ "BANANA" rfl).1,
   C7_amended.2.1 "BANANA" (by decide) (by decide) (by decide),
   (C7_amended.2.2 _ "t" _ rfl).1⟩

/-- C9: the timeline confidence text depends only on the `confidence`
field (rendered as `confidence*100` with one decimal), ignoring
`severity_confidence`; an alert payload providing only
`severity_confidence` shows the non-numeric "NaN%" in its timeline
entry while the gauge normalization of the same event yields the
`severity_confidence` value. -/
theorem C9_timeline_confidence_nan :
    (∀ d₁ d₂ : DetectionPayload, d₁.confidence = d₂.confidence →
        timelineConfidenceText d₁ = timelineConfidenceText d₂)
      ∧ (∀ (d : DetectionPayload) (sv : ℚ), d.confidence = none →
          d.severity_confidence = some sv → sv ≠ 0 →
          timelineConfidenceText d = "NaN%" ∧ normalizedConfidence d = sv)
      ∧ (∀ (d : DetectionPayload) (t : String) (sev : String),
          (mkTimelineItem d t sev).timeText
            = t ++ " - Confidence: " ++ timelineConfidenceText d) := by
  refine ⟨?_, ?_, ?_⟩
  · intro d₁ d₂ h
    unfold timelineConfidenceText
    rw [h]
  · intro d sv hc hsv hne
    exact ⟨by simp [timelineConfidenceText, hc],
      by simp [normalizedConfidence, jsOr, hsv, hne]⟩
  · intro d t sev
    rfl

/-- Witness for C9 at a payload carrying only `severity_confidence`. -/
theorem C9_timeline_confidence_nan_witness :
    timelineConfidenceText
        (DetectionPayload.mk true (some "MAJOR") (some 42) none none none) = "NaN%"
      ∧ normalizedConfidence
          (DetectionPayload.mk true (some "MAJOR") (some 42) none none none) = 42 :=
  C9_timeline_confidence_nan.2.1 _ 42 rfl rfl (by norm_num)

/-- C10: a zero value can never be displayed for any aggregate counter:
a `stats_update` carrying `accidents_detected = 0` and all-zero
severity counts displays the built-in defaults 24/12/8/4, the initial
view is nonzero everywhere, and `updateStats` preserves the all-nonzero
property of every reachable stats view. -/
theorem C10_zero_never_displayed :
    updateStats ⟨some 0, some ⟨some 0, some 0, some 0⟩⟩ initStatsView = initStatsView
      ∧ (initStatsView.accidentsDetected ≠ 0 ∧ initStatsView.chartMinor ≠ 0
          ∧ initStatsView.chartMajor ≠ 0 ∧ initStatsView.chartCritical ≠ 0)
      ∧ (∀ (d : StatsPayload) (s : StatsView),
          s.chartMinor ≠ 0 → s.chartMajor ≠ 0 → s.chartCritical ≠ 0 →
          (updateStats d s).accidentsDetected ≠ 0
            ∧ (updateStats d s).chartMinor ≠ 0
            ∧ (updateStats d s).chartMajor ≠ 0
            ∧ (updateStats d s).chartCritical ≠ 0) := by
  refine ⟨by norm_num [updateStats, jsOr, initStatsView], by norm_num [initStatsView], ?_⟩
  intro d s h1 h2 h3
  rcases hsc : d.severity_counts with _ | sc
  · exact ⟨by simpa [updateStats, hsc] using
        jsOr_ne_zero (by norm_num : (24:ℚ) ≠ 0),
      by simpa [updateStats, hsc] using h1,
      by simpa [updateStats, hsc] using h2,
      by simpa [updateStats, hsc] using h3⟩
  · exact ⟨by simpa [updateStats, hsc] using
        jsOr_ne_zero (by norm_num : (24:ℚ) ≠ 0),
      by simpa [updateStats, hsc] using
        jsOr_ne_zero (by norm_num : (12:ℚ) ≠ 0),
      by simpa [updateStats, hsc] using
        jsOr_ne_zero (by norm_num : (8:ℚ) ≠ 0),
      by simpa [updateStats, hsc] using
        jsOr_ne_zero (by norm_num : (4:ℚ) ≠ 0)⟩

/-- Witness for C10 at the all-zero stats payload over the initial view. -/
theorem C10_zero_never_displayed_witness :
    (updateStats ⟨some 0, some ⟨some 0, some 0, some 0⟩⟩ initStatsView).accidentsDetected
        ≠ 0
      ∧ (updateStats ⟨some 0, some ⟨some 0, some 0, some 0⟩⟩ initStatsView).chartMinor
        ≠ 0
      ∧ (updateStats ⟨some 0, some ⟨some 0, some 0, some 0⟩⟩ initStatsView).chartMajor
        ≠ 0
      ∧ (updateStats ⟨some 0, some ⟨some 0, some 0, some 0⟩⟩ initStatsView).chartCritical
        ≠ 0 :=
  C10_zero_never_displayed.2.2 _ initStatsView (by norm_num [initStatsView])
    (by norm_num [initStatsView]) (by norm_num [initStatsView])

end AccidentDashboard
